import Mathlib

/-!
Verification development for the `nix-search` command-line client
(`src/nix_search/client.py`, `src/nix_search/cli.py`,
`src/nix_search/formatter.py`).

The Python code is shallowly embedded: pure query construction becomes Lean
functions over an explicit clause datatype, the CLI validation becomes a
function into an outcome datatype, and the rendering entry point
`print_results` becomes a function from its inputs (plus the
`sys.stdout.isatty()` observation) to a datatype describing the
externally visible action it takes.  Python truthiness of optional strings,
optional booleans and JSON-like values is made explicit.
-/

namespace NixSearch

/-- Python truthiness of a `str | None` value: `None` and `""` are falsy,
every other string is truthy. -/
def pyTruthyOpt : Option String → Bool
  | none => false
  | some s => !(s == "")

/-- One entry of an Elasticsearch `multi_match` query, as built by
`NixOSSearchClient._build_query` (`client.py` lines 51-69): the query
string, the match type (always `"cross_fields"` there) and the weighted
field list. -/
structure MultiMatch where
  query : String
  matchType : String
  fields : List String
deriving DecidableEq, Repr

/-- One clause of the `must` list of the Elasticsearch boolean query built
by `_build_query`: a `dis_max` wrapper around multi-matches, a `wildcard`
on one field, a `term` on one field, or `match_all`. -/
inductive Clause where
  | disMax (queries : List MultiMatch)
  | wildcard (field : String) (pattern : String)
  | term (field : String) (value : String)
  | matchAll
deriving DecidableEq, Repr

/-- The structured query `{"query": {"bool": {"must": ...}}}` returned by
`_build_query`; only the `must` list varies, so the embedding keeps it. -/
structure ESQuery where
  must : List Clause
deriving DecidableEq, Repr

/-- The package-oriented weighted field list of `_build_query`
(`client.py` lines 54-66), used when `search_type == "packages"`. -/
def packagesFields : List String :=
  ["package_attr_name^9",
   "package_attr_name.*^5.3999999999999995",
   "package_programs^9",
   "package_programs.*^5.3999999999999995",
   "package_pname^6",
   "package_pname.*^3.5999999999999996",
   "package_description^1.3",
   "package_description.*^0.78",
   "package_longDescription^1",
   "package_longDescription.*^0.6",
   "flake_name^0.5"]

/-- The two-field list of `_build_query` (`client.py` line 68), used when
`search_type` is anything other than `"packages"`. -/
def optionsFields : List String := ["option_name^2", "option_description"]

/-- The `must` clause list assembled by `_build_query` (`client.py` lines
42-87), before the empty-list fallback: an optional `dis_max` clause for a
truthy free-text query, then optional `wildcard` clauses for truthy
`name`/`program`/`version`, then an optional `term` clause for a truthy
`platform`, appended in that order. -/
def buildMust (query : String) (name program version platform : Option String)
    (search_type : String) : List Clause :=
  (if query ≠ "" then
    [Clause.disMax [⟨query, "cross_fields",
      if search_type = "packages" then packagesFields else optionsFields⟩]]
   else [])
  ++ (match name with
      | some s => if s ≠ "" then [Clause.wildcard "package_attr_name" ("*" ++ s ++ "*")] else []
      | none => [])
  ++ (match program with
      | some s => if s ≠ "" then [Clause.wildcard "package_programs" ("*" ++ s ++ "*")] else []
      | none => [])
  ++ (match version with
      | some s => if s ≠ "" then [Clause.wildcard "package_pversion" ("*" ++ s ++ "*")] else []
      | none => [])
  ++ (match platform with
      | some s => if s ≠ "" then [Clause.term "package_platforms" s] else []
      | none => [])

/-- `NixOSSearchClient._build_query` (`client.py` lines 31-96): the `must`
clauses, with the `match_all` fallback when no clause is present. -/
def buildQuery (query : String) (name program version platform : Option String)
    (search_type : String) : ESQuery :=
  let must_clauses := buildMust query name program version platform search_type
  ⟨if must_clauses = [] then [Clause.matchAll] else must_clauses⟩

/-- `SCHEMA_VERSION` constant of `client.py` (line 9). -/
def SCHEMA_VERSION : Nat := 44

/-- `MAX_RESULTS` constant of `client.py` (line 11). -/
def MAX_RESULTS : Int := 10000

/-- Index resolution of `NixOSSearchClient.search` (`client.py` lines
127-139): flakes ignore the channel; options and packages branch on
`channel == "unstable"`. Any `search_type` other than `"flakes"` and
`"options"` falls into the packages branch, as in the source `else`. -/
def indexName (search_type channel : String) : String :=
  if search_type = "flakes" then
    "latest-" ++ toString SCHEMA_VERSION ++ "-nixos-flakes"
  else if search_type = "options" then
    if channel = "unstable" then
      "latest-" ++ toString SCHEMA_VERSION ++ "-nixos-unstable-options"
    else
      "latest-" ++ toString SCHEMA_VERSION ++ "-nixos-" ++ channel ++ "-options"
  else
    if channel = "unstable" then
      "latest-" ++ toString SCHEMA_VERSION ++ "-nixos-unstable"
    else
      "latest-" ++ toString SCHEMA_VERSION ++ "-nixos-" ++ channel

/-- The request body assembled by `NixOSSearchClient.search` (`client.py`
lines 143-155): built query plus `size`, `from` and the sort
specification, which is two-keyed exactly when `search_type == "packages"`. -/
structure RequestBody where
  queryMust : List Clause
  size : Int
  fromOffset : Int
  sort : List (String × String)
deriving DecidableEq, Repr

/-- The pure part of `NixOSSearchClient.search`: the body it posts
(`client.py` lines 143-155). -/
def searchBody (query : String) (name program version platform : Option String)
    (search_type : String) (size from_ : Int) : RequestBody :=
  { queryMust := (buildQuery query name program version platform search_type).must
    size := size
    fromOffset := from_
    sort :=
      if search_type = "packages" then
        [("_score", "desc"), ("package_attr_name", "desc")]
      else
        [("_score", "desc")] }

/-- The multi-match field lists a clause carries when it is a `dis_max`
clause. -/
def dmFields : Clause → Option (List (List String))
  | Clause.disMax ms => some (ms.map MultiMatch.fields)
  | _ => none

/-- The field lists carried by `dis_max` clauses of a built query, in
order: for each `dis_max` clause of the `must` list, the field list of each
of its multi-matches. -/
def disMaxFieldLists (q : ESQuery) : List (List String) :=
  (q.must.filterMap dmFields).flatten

/-- The wildcard pattern a clause carries when it is a wildcard on field
`f`. -/
def wcOn (f : String) : Clause → Option String
  | Clause.wildcard f' pat => if f' = f then some pat else none
  | _ => none

/-- The wildcard patterns a built query carries on a given field, in
order. -/
def wildcardsOn (f : String) (q : ESQuery) : List String :=
  q.must.filterMap (wcOn f)

/-- What `main` in `cli.py` does up to and including validation (lines
180-198): either it raises a usage error (`click.UsageError` or
`click.BadParameter`, both subclasses of `UsageError`, reported with a
non-zero exit) before the client is constructed, or validation passes and
it proceeds to construct `NixOSSearchClient(base_url=...)` and call
`search` (lines 198-210). -/
inductive MainStep where
  | usageError (msg : String)
  | badParameter (msg : String) (param_hint : String)
  | performSearch (base_url : String)
deriving DecidableEq, Repr

/-- `MainStep` outcomes that raise a usage error (non-zero exit before any
client construction or network call). -/
def MainStep.isError : MainStep → Bool
  | .performSearch _ => false
  | _ => true

/-- The validation sequence of `main` (`cli.py` lines 180-198), checked in
source order: presence of at least one of query/name/program/version
(Python `any` truthiness), `size > 0`, `from_ >= 0`,
`from_ + size <= MAX_RESULTS`. -/
def mainValidate (query : String) (name program version : Option String)
    (size from_ : Int) (base_url : String) : MainStep :=
  if !(!(query == "") || pyTruthyOpt name || pyTruthyOpt program || pyTruthyOpt version) then
    .usageError "At least one of: QUERY, --name, --program, or --version must be specified"
  else if size ≤ 0 then
    .badParameter "size must be greater than 0" "--size"
  else if from_ < 0 then
    .badParameter "from must be non-negative" "--from"
  else if from_ + size > MAX_RESULTS then
    .badParameter "from + size cannot exceed 10000 (Elasticsearch limit)" "--from/--size"
  else
    .performSearch base_url

/-- A Python/JSON scalar value as it can appear in a hit's `_source`
record; `none` stands for JSON `null` (Python `None`), which is also what
`dict.get` returns for an absent key. -/
inductive PyVal where
  | none
  | bool (b : Bool)
  | int (n : Int)
  | str (s : String)
deriving DecidableEq, Repr

/-- Python truthiness of a scalar: `None`, `False`, `0` and `""` are
falsy. -/
def PyVal.truthy : PyVal → Bool
  | .none => false
  | .bool b => b
  | .int n => !(n == 0)
  | .str s => !(s == "")

/-- Python `str()` on a scalar: `None` → `"None"`, booleans capitalised,
integers in decimal, strings unchanged. -/
def PyVal.pyStr : PyVal → String
  | .none => "None"
  | .bool b => if b then "True" else "False"
  | .int n => toString n
  | .str s => s

/-- Display constants of `formatter.py` (lines 11-16). -/
def MAX_OPTION_DESCRIPTION_LENGTH : Nat := 200

/-- `MAX_DEFAULT_LENGTH` of `formatter.py` (line 14). -/
def MAX_DEFAULT_LENGTH : Nat := 100

/-- `MAX_EXAMPLE_LENGTH` of `formatter.py` (line 15). -/
def MAX_EXAMPLE_LENGTH : Nat := 100

/-- `PAGER_THRESHOLD` of `formatter.py` (line 16). -/
def PAGER_THRESHOLD : Nat := 10

/-- The `_source` record of an option hit, restricted to the fields
`format_option_result_table` reads. `Option String` models presence in the
dict for the fields read with a string default (`source.get(key, dflt)`);
`option_default` and `option_example` are read with `source.get(key)`,
whose `None` result for an absent key coincides with `PyVal.none`. -/
structure OptionSource where
  option_name : Option String
  option_type : Option String
  option_description : Option String
  option_default : PyVal
  option_example : PyVal
deriving DecidableEq, Repr

/-- `format_option_result_table` (`formatter.py` lines 83-121), as the
ordered list of `(field, value)` rows added to the rich table. Markup
strings are kept verbatim; `str(x)[:k]` becomes `String.take`. -/
def format_option_result_table (source : OptionSource) (index : Nat)
    (details : Bool) : List (String × String) :=
  let option_name := source.option_name.getD "unknown"
  let option_type := source.option_type.getD ""
  let description := source.option_description.getD ""
  let defaultVal := source.option_default
  let exampleVal := source.option_example
  let name_markup :=
    "[dim]\\[" ++ toString index ++ "][/dim] [bold magenta]" ++ option_name ++ "[/bold magenta]"
  [("Option", name_markup)]
  ++ (if option_type ≠ "" then
        [("Type", "[cyan]" ++ option_type ++ "[/cyan]")]
      else [])
  ++ (if description ≠ "" then
        [("Description",
          if description.length > MAX_OPTION_DESCRIPTION_LENGTH then
            description.take MAX_OPTION_DESCRIPTION_LENGTH ++ "..."
          else description)]
      else [])
  ++ (if details then
        (if defaultVal.truthy then
          [("Default", "[yellow]" ++ (defaultVal.pyStr.take MAX_DEFAULT_LENGTH) ++ "[/yellow]")]
         else [])
        ++ (if exampleVal.truthy then
          [("Example", "[green]" ++ (exampleVal.pyStr.take MAX_EXAMPLE_LENGTH) ++ "[/green]")]
           else [])
      else [])

/-- The `total` field of a search response, as read by `print_results`
(`formatter.py` lines 186-187): a dict (Elasticsearch sends
`{"value": n, "relation": ...}`; `total.get("value", 0)` is read, with
`Option.none` modelling an absent `value` key) or a bare number. -/
inductive TotalField where
  | dict (value : Option Int)
  | num (n : Int)
deriving DecidableEq, Repr

/-- `total.get("value", 0) if isinstance(total, dict) else total`
(`formatter.py` line 187). -/
def totalValueOf : TotalField → Int
  | .dict v => v.getD 0
  | .num n => n

/-- The response data reaching `print_results`, restricted to what it
reads: `data["hits"]["hits"]` (the ordered hit list, of an arbitrary hit
type `H`) and `data["hits"]["total"]`. -/
structure SearchData (H : Type) where
  hits : List H
  total : TotalField
deriving Repr

/-- The externally visible action `print_results` (`formatter.py` lines
157-212) takes: print raw JSON (through the pager or not), print the
no-results notice and return, or render the result tables via
`_render_results` into the pager or directly to stdout. The render
constructors record the hit list in display order, the reported total, and
the formatting inputs passed to `_render_results`. -/
inductive PrintAction (H : Type) where
  | jsonOut (paged : Bool)
  | noResultsNotice
  | renderPaged (search_type : String) (displayHits : List H) (totalValue : Int)
      (details compact : Bool)
  | renderDirect (search_type : String) (displayHits : List H) (totalValue : Int)
      (details compact : Bool)
deriving Repr

/-- `print_results` (`formatter.py` lines 157-212). `stdout_isatty` is the
value of `sys.stdout.isatty()` at line 203. The JSON branch pages iff
`use_pager` is truthy (Python `if use_pager:`, line 179); the table branch
pages iff `use_pager if use_pager is not None else len(hits) > PAGER_THRESHOLD`
and stdout is a tty (lines 199-203). -/
def print_results (data : SearchData H) (search_type : String)
    (details compact json_output reverse : Bool) (use_pager : Option Bool)
    (stdout_isatty : Bool) : PrintAction H :=
  if json_output then
    .jsonOut (use_pager.getD false)
  else
    let hits := data.hits
    let total_value := totalValueOf data.total
    if hits.isEmpty then
      .noResultsNotice
    else
      let hits := if reverse then hits.reverse else hits
      let should_use_pager :=
        match use_pager with
        | some b => b
        | none => decide (hits.length > PAGER_THRESHOLD)
      if should_use_pager && stdout_isatty then
        .renderPaged search_type hits total_value details compact
      else
        .renderDirect search_type hits total_value details compact

/-- Whether a `print_results` action hands content to the external pager
(`click.echo_via_pager`). -/
def pagerInvoked : PrintAction H → Bool
  | .jsonOut paged => paged
  | .renderPaged _ _ _ _ _ => true
  | _ => false

/-- The hit list in display order of a `print_results` action; empty when
no tables are rendered. -/
def displayedHits : PrintAction H → List H
  | .renderPaged _ hs _ _ _ => hs
  | .renderDirect _ hs _ _ _ => hs
  | _ => []

/-- The total count reported in the rendered header, when tables are
rendered. -/
def reportedTotal : PrintAction H → Option Int
  | .renderPaged _ _ t _ _ => some t
  | .renderDirect _ _ t _ _ => some t
  | _ => none

/-- Whether a `print_results` action constructs result tables
(`_render_results` runs). -/
def rendersTables : PrintAction H → Bool
  | .renderPaged _ _ _ _ _ => true
  | .renderDirect _ _ _ _ _ => true
  | _ => false

/-! ## Helper lemmas -/

/-- Scanning the must-clauses of a built query with a matcher that ignores
`match_all` is the same as scanning the raw clause list: the `match_all`
fallback only fires when that list is empty. -/
theorem filterMap_buildQuery_must {α : Type} (g : Clause → Option α)
    (hma : g Clause.matchAll = none) (q : String)
    (name program version platform : Option String) (st : String) :
    (buildQuery q name program version platform st).must.filterMap g =
      (buildMust q name program version platform st).filterMap g := by
  show (if buildMust q name program version platform st = [] then [Clause.matchAll]
        else buildMust q name program version platform st).filterMap g = _
  split
  · rename_i h
    rw [h]
    simp [hma]
  · rfl

end NixSearch

namespace NixSearch

/-- C1: for a non-empty free-text query the single `dis_max` clause
carries the package-oriented field list only when `search_type` is
`"packages"`; both `"options"` and `"flakes"` (and any other value) get
the two-field options list, because `_build_query` tests
`search_type == "packages"` only (`client.py` line 67). This is the
amended form of the claim; `C1_flakes_counterexample` refutes the original
packages-or-flakes form. -/
theorem C1_dis_max_field_list (q : String)
    (name program version platform : Option String) (st : String) :
    disMaxFieldLists (buildQuery q name program version platform st) =
      if q = "" then []
      else [if st = "packages" then packagesFields else optionsFields] := by
  unfold disMaxFieldLists
  rw [filterMap_buildQuery_must dmFields rfl]
  unfold buildMust
  rcases name with _ | n <;> rcases program with _ | p <;>
    rcases version with _ | v <;> rcases platform with _ | pl <;>
    split_ifs <;> simp_all [dmFields, List.filterMap_append]

/-- C1: counterexample to the original claim — with the non-empty query
`"python"` and `searchType = "flakes"`, the `dis_max` clause carries the
two-field options list, which is not the package-oriented list. -/
theorem C1_flakes_counterexample :
    disMaxFieldLists (buildQuery "python" none none none none "flakes") = [optionsFields]
    ∧ optionsFields ≠ packagesFields := by
  exact ⟨rfl, by decide⟩

/-- C2: the sort specification of the request body built by `search` is
`[{_score: desc}, {package_attr_name: desc}]` only for
`searchType = "packages"`; `"options"` and `"flakes"` both get
`[{_score: desc}]`, because line 153 of `client.py` tests
`search_type == "packages"` only. Amended form of the claim;
`C2_flakes_counterexample` refutes the original packages-or-flakes form. -/
theorem C2_sort_specification (q : String)
    (name program version platform : Option String) (st : String)
    (size from_ : Int) :
    (searchBody q name program version platform st size from_).sort =
      if st = "packages" then [("_score", "desc"), ("package_attr_name", "desc")]
      else [("_score", "desc")] := rfl

/-- C2: counterexample to the original claim — a flakes search gets the
score-only sort, not the two-key packages sort. -/
theorem C2_flakes_counterexample :
    (searchBody "python" none none none none "flakes" 20 0).sort = [("_score", "desc")]
    ∧ (searchBody "python" none none none none "flakes" 20 0).sort ≠
        [("_score", "desc"), ("package_attr_name", "desc")] := by
  exact ⟨rfl, by decide⟩

/-- C3: for every channel, the derived index name is
`latest-44-nixos-flakes` for flakes (channel-independent),
`latest-44-nixos-unstable-options` / `latest-44-nixos-<channel>-options`
for options, and `latest-44-nixos-unstable` / `latest-44-nixos-<channel>`
for packages. -/
theorem C3_index_naming (ch : String) :
    indexName "flakes" ch = "latest-44-nixos-flakes"
    ∧ indexName "options" ch =
        (if ch = "unstable" then "latest-44-nixos-unstable-options"
         else "latest-44-nixos-" ++ ch ++ "-options")
    ∧ indexName "packages" ch =
        (if ch = "unstable" then "latest-44-nixos-unstable"
         else "latest-44-nixos-" ++ ch) := by
  by_cases h : ch = "unstable"
  · subst h
    exact ⟨rfl, rfl, rfl⟩
  · refine ⟨rfl, ?_, ?_⟩ <;> simp only [indexName] <;> split_ifs <;> first | rfl | simp_all

/-- C4: the built query contains exactly one wildcard clause per provided
(non-`None`, non-empty) `name`/`program`/`version` filter — on
`package_attr_name`, `package_programs` and `package_pversion`
respectively — with the value wrapped literally as `*value*`; absent
filters contribute no wildcard clause on their field. -/
theorem C4_wildcard_clauses (q : String)
    (name program version platform : Option String) (st : String) :
    wildcardsOn "package_attr_name" (buildQuery q name program version platform st) =
      (match name with
       | some s => if s ≠ "" then ["*" ++ s ++ "*"] else []
       | none => [])
    ∧ wildcardsOn "package_programs" (buildQuery q name program version platform st) =
      (match program with
       | some s => if s ≠ "" then ["*" ++ s ++ "*"] else []
       | none => [])
    ∧ wildcardsOn "package_pversion" (buildQuery q name program version platform st) =
      (match version with
       | some s => if s ≠ "" then ["*" ++ s ++ "*"] else []
       | none => []) := by
  refine ⟨?_, ?_, ?_⟩ <;>
    · unfold wildcardsOn
      rw [filterMap_buildQuery_must _ rfl]
      unfold buildMust
      rcases name with _ | n <;> rcases program with _ | p <;>
        rcases version with _ | v <;> rcases platform with _ | pl <;>
        split_ifs <;>
        simp_all [wcOn, List.filterMap_append,
          apply_ite (List.filterMap (wcOn "package_attr_name")),
          apply_ite (List.filterMap (wcOn "package_programs")),
          apply_ite (List.filterMap (wcOn "package_pversion"))]

/-- C5: `main` raises a usage error (non-zero exit, before the search
client is constructed or any network call is attempted) exactly when none
of query/name/program/version is truthy, or `size <= 0`, or `from_ < 0`,
or `from_ + size > 10000`; when all four checks pass, no usage error is
raised and `main` proceeds to construct the client. -/
theorem C5_cli_validation (query : String) (name program version : Option String)
    (size from_ : Int) (base_url : String) :
    ((mainValidate query name program version size from_ base_url).isError = true ↔
      (¬(query ≠ "" ∨ pyTruthyOpt name = true ∨ pyTruthyOpt program = true ∨
          pyTruthyOpt version = true)
       ∨ size ≤ 0 ∨ from_ < 0 ∨ from_ + size > MAX_RESULTS))
    ∧ ((mainValidate query name program version size from_ base_url).isError = false ↔
       mainValidate query name program version size from_ base_url =
         MainStep.performSearch base_url) := by
  unfold mainValidate
  split_ifs <;> simp_all [MainStep.isError]

/-- C6: with `reverse = true`, the non-JSON display order of a non-empty
hit list is the exact reverse of the hits array order (so reversing the
displayed list restores the `reverse = false` display order), and the
reported total count is the same as with `reverse = false`. -/
theorem C6_reverse_display {H : Type} (data : SearchData H) (st : String)
    (details compact : Bool) (use_pager : Option Bool) (tty : Bool)
    (h : data.hits ≠ []) :
    displayedHits (print_results data st details compact false true use_pager tty) =
      data.hits.reverse
    ∧ (displayedHits (print_results data st details compact false true use_pager tty)).reverse =
      displayedHits (print_results data st details compact false false use_pager tty)
    ∧ reportedTotal (print_results data st details compact false true use_pager tty) =
      reportedTotal (print_results data st details compact false false use_pager tty) := by
  cases hd : data.hits with
  | nil => exact absurd hd h
  | cons a t =>
      unfold print_results
      simp [hd]
      split_ifs <;> simp [displayedHits, reportedTotal]

/-- C6 witness: a concrete three-hit response displayed in reverse. -/
theorem C6_reverse_display_witness :
    displayedHits (print_results (⟨[1, 2, 3], TotalField.num 3⟩ : SearchData Nat)
        "packages" false false false true none true) =
      (⟨[1, 2, 3], TotalField.num 3⟩ : SearchData Nat).hits.reverse
    ∧ (displayedHits (print_results (⟨[1, 2, 3], TotalField.num 3⟩ : SearchData Nat)
        "packages" false false false true none true)).reverse =
      displayedHits (print_results (⟨[1, 2, 3], TotalField.num 3⟩ : SearchData Nat)
        "packages" false false false false none true)
    ∧ reportedTotal (print_results (⟨[1, 2, 3], TotalField.num 3⟩ : SearchData Nat)
        "packages" false false false true none true) =
      reportedTotal (print_results (⟨[1, 2, 3], TotalField.num 3⟩ : SearchData Nat)
        "packages" false false false false none true) :=
  C6_reverse_display _ _ _ _ _ _ (by decide)

/-- C7: a response with an empty hit list makes non-JSON rendering print
the no-results notice and return: no result table is constructed and no
pager is invoked (the embedded `print_results` returns normally, so the
process exits 0 as on any success path). -/
theorem C7_no_results {H : Type} (data : SearchData H) (st : String)
    (details compact reverse : Bool) (use_pager : Option Bool) (tty : Bool)
    (h : data.hits = []) :
    print_results data st details compact false reverse use_pager tty =
      PrintAction.noResultsNotice
    ∧ rendersTables (print_results data st details compact false reverse use_pager tty) = false
    ∧ pagerInvoked (print_results data st details compact false reverse use_pager tty) = false := by
  unfold print_results
  simp [h, rendersTables, pagerInvoked]

/-- C7 witness: a concrete empty response. -/
theorem C7_no_results_witness :
    print_results (⟨[], TotalField.num 0⟩ : SearchData Nat) "packages"
        false false false false none true = PrintAction.noResultsNotice
    ∧ rendersTables (print_results (⟨[], TotalField.num 0⟩ : SearchData Nat) "packages"
        false false false false none true) = false
    ∧ pagerInvoked (print_results (⟨[], TotalField.num 0⟩ : SearchData Nat) "packages"
        false false false false none true) = false :=
  C7_no_results _ _ _ _ _ _ _ rfl

/-- C8: with no explicit pager flag (`use_pager = none`) the pager is
never invoked on a non-interactive stdout, whatever the hit count; on an
interactive stdout it is invoked exactly when the hit count exceeds the
threshold 10. -/
theorem C8_auto_pager {H : Type} (data : SearchData H) (st : String)
    (details compact reverse : Bool) :
    pagerInvoked (print_results data st details compact false reverse none false) = false
    ∧ pagerInvoked (print_results data st details compact false reverse none true) =
        decide (data.hits.length > PAGER_THRESHOLD) := by
  rcases data with ⟨hits, total⟩
  cases hits with
  | nil => simp [print_results, pagerInvoked, PAGER_THRESHOLD]
  | cons a t =>
      unfold print_results
      cases reverse <;>
        simp [apply_ite (pagerInvoked (H := H))] <;>
        split_ifs <;> simp_all [pagerInvoked]

/-- C9: the pager gating differs between output modes — in JSON mode a
forced-on pager routes the output through the pager regardless of whether
stdout is a terminal, while in table mode the pager is never used on a
non-interactive stdout, even when forced on. -/
theorem C9_pager_mode_asymmetry {H : Type} (data : SearchData H) (st : String)
    (details compact reverse : Bool) (tty : Bool) (use_pager : Option Bool) :
    pagerInvoked (print_results data st details compact true reverse (some true) tty) = true
    ∧ pagerInvoked (print_results data st details compact false reverse use_pager false) = false := by
  constructor
  · rfl
  · rcases data with ⟨hits, total⟩
    cases hits with
    | nil => simp [print_results, pagerInvoked]
    | cons a t =>
        unfold print_results
        simp [apply_ite (pagerInvoked (H := H)), pagerInvoked]

/-- C10: with `details = true`, the option formatter emits the Default and
Example rows only when the corresponding source value is Python-truthy —
`False`, `0`, `""` and `null`/absent are all silently omitted — and an
emitted value is `str(...)` truncated to 100 characters with no ellipsis
appended. -/
theorem C10_option_default_example_rows (source : OptionSource) (i : Nat) :
    ((format_option_result_table source i true).filter fun r => r.1 == "Default") =
      (if source.option_default.truthy then
        [("Default",
          "[yellow]" ++ (source.option_default.pyStr.take MAX_DEFAULT_LENGTH) ++ "[/yellow]")]
       else [])
    ∧ ((format_option_result_table source i true).filter fun r => r.1 == "Example") =
      (if source.option_example.truthy then
        [("Example",
          "[green]" ++ (source.option_example.pyStr.take MAX_EXAMPLE_LENGTH) ++ "[/green]")]
       else [])
    ∧ (PyVal.bool false).truthy = false ∧ (PyVal.int 0).truthy = false
    ∧ (PyVal.str "").truthy = false ∧ PyVal.none.truthy = false := by
  refine ⟨?_, ?_, rfl, rfl, rfl, rfl⟩ <;>
    · simp only [format_option_result_table]
      split_ifs <;> simp_all [List.filter_append]

end NixSearch
